import Mathlib

/-!
Verification of the `remote_ir_device_manager` Home Assistant integration.

The Python sources are shallowly embedded:
* Python `dict[str, V]` becomes an association list `List (String × V)`;
  assignment replaces the first binding in place (else appends), matching
  insertion-order semantics of `dict`.
* `str.lower()` becomes `lower` (ASCII names, as in the integration).
* Python `round` (round half to even) is applied to the exact rational the
  float expression denotes, as the integer function `pyRoundDiv`; the
  rational reference `pyRoundQ` is related to it by a proved lemma.
* Coordinator methods that may raise `HomeAssistantError` return `Except`;
  the `run*` wrappers give the store the caller observes (raising before any
  mutation leaves the store as it was).
-/

namespace RIDM

/-! ### Association lists, the embedding of Python `dict[str, _]` -/

/-- First binding for a key, the embedding of `d.get(k)` / `d[k]`. -/
def alookup {α : Type} : List (String × α) → String → Option α
  | [], _ => none
  | (k, v) :: rest, key => if k = key then some v else alookup rest key

/-- The embedding of `k in d`. -/
def acontains {α : Type} (l : List (String × α)) (key : String) : Bool :=
  (alookup l key).isSome

/-- The embedding of `d[k] = v`: replace the first binding in place,
otherwise append (Python dicts keep insertion order). -/
def ainsert {α : Type} : List (String × α) → String → α → List (String × α)
  | [], key, v => [(key, v)]
  | (k, w) :: rest, key, v =>
      if k = key then (key, v) :: rest else (k, w) :: ainsert rest key v

/-- The embedding of `del d[k]` (first binding removed). -/
def aerase {α : Type} : List (String × α) → String → List (String × α)
  | [], _ => []
  | (k, w) :: rest, key => if k = key then rest else (k, w) :: aerase rest key

/-- The embedding of `d.setdefault(k, v)` (its effect on the dict). -/
def setdefault {α : Type} (l : List (String × α)) (key : String) (v : α) :
    List (String × α) :=
  if acontains l key then l else l ++ [(key, v)]

/-- Keys of an association list. -/
def akeys {α : Type} (l : List (String × α)) : List String :=
  l.map Prod.fst


/-! ### Python primitives -/

/-- The embedding of `str.lower()` (names in this integration are ASCII). -/
def lower (s : String) : String := ⟨s.toList.map Char.toLower⟩

/-- The embedding of `s.startswith(p)`. -/
def startsWith (s p : String) : Bool := s.toList.take p.length == p.toList

/-- Python `round` of the exact quotient `num / den` (`den > 0`):
round half to even, the semantics of `round(x)` in Python 3.  The float
expressions of the source (`round((target - 1) / 254 * (N - 1))`,
`round(abs(diff) / step_size)`) are modelled by the exact rational they
denote, written as one integer quotient. -/
def pyRoundDiv (num den : ℤ) : ℤ :=
  let f := num / den
  let r2 := 2 * (num - f * den)
  if r2 < den then f
  else if den < r2 then f + 1
  else if f % 2 = 0 then f else f + 1

/-- Reference form of Python `round` on an exact rational. -/
def pyRoundQ (q : ℚ) : ℤ :=
  if q - ⌊q⌋ < 1/2 then ⌊q⌋
  else if 1/2 < q - ⌊q⌋ then ⌊q⌋ + 1
  else if ⌊q⌋ % 2 = 0 then ⌊q⌋ else ⌊q⌋ + 1

/-! ### Base64 validation, the embedding of `base64.b64decode(code, validate=True)` -/

/-- A character of the standard base64 alphabet. -/
def isB64Char (c : Char) : Bool := c.isAlphanum || c == '+' || c == '/'

/-- Validity check of `base64.b64decode(s, validate=True)`: it succeeds exactly when:
the length is a multiple of 4, at most two trailing `=` padding characters,
and everything before the padding is in the base64 alphabet
(CPython delegates to `binascii.a2b_base64(s, strict_mode=True)`). -/
def validB64List (cs : List Char) : Bool :=
  let data := cs.takeWhile (fun c => c ≠ '=')
  let pad := cs.drop data.length
  decide (cs.length % 4 = 0) && decide (pad.length ≤ 2)
    && pad.all (fun c => c == '=') && data.all isB64Char

def validBase64 (s : String) : Bool := validB64List s.toList

/-- The `b64:` markup stripping of `coordinator.async_add_command`:
`if code.startswith("b64:"): code = code[4:]`. -/
def stripB64 (code : String) : String :=
  if startsWith code "b64:" then ⟨code.toList.drop 4⟩ else code

/-! ### Data model (`storage.py`) -/

/-- Python values kept in the generic `dict[str, Any]` fields of the
storage records (`command_mappings`, `state`, `options`, raw snapshots). -/
inductive PyVal where
  | str : String → PyVal
  | int : Int → PyVal
  | boolean : Bool → PyVal
  | none : PyVal
  | list : List PyVal → PyVal
  | dict : List (String × PyVal) → PyVal

/-- The source `IRCommand` dataclass of `storage.py`. -/
structure IRCommand where
  id : String
  name : String
  code : String
  command_type : String
  learned_at : String
  icon : Option String

/-- The source `EntityConfig` dataclass of `storage.py`. -/
structure EntityConfig where
  entity_type : String
  enabled : Bool
  command_mappings : List (String × PyVal)
  state : List (String × PyVal)
  options : List (String × PyVal)

/-- The source `VirtualDevice` dataclass of `storage.py`; `commands` is keyed by the
lowercased command name. -/
structure VirtualDevice where
  id : String
  name : String
  ir_blaster_entity_id : String
  commands : List (String × IRCommand)
  created_at : String
  device_type : String
  entity_configs : List (String × EntityConfig)

/-- The state `IRDeviceStorage` manages: the in-memory `_devices` map and
the device map of the last snapshot written by `async_save` (the
`virtual_devices` part of the stored data). -/
structure Store where
  devices : List (String × VirtualDevice)
  persisted : List (String × VirtualDevice)

/-! ### `IRDeviceStorage` operations (`storage.py`) -/

namespace IRDeviceStorage

/-- The source `get_device`. -/
def get_device (s : Store) (device_id : String) : Option VirtualDevice :=
  alookup s.devices device_id

/-- The source `get_device_by_name`: first device whose name matches up to case. -/
def get_device_by_name (s : Store) (name : String) : Option VirtualDevice :=
  (s.devices.find? (fun p => lower p.2.name = lower name)).map Prod.snd

/-- The source `async_save`: snapshot the in-memory devices. -/
def async_save (s : Store) : Store :=
  { devices := s.devices, persisted := s.devices }

/-- The source `async_add_device` of the storage layer: unconditional insert + save. -/
def async_add_device (s : Store) (device : VirtualDevice) : Store :=
  async_save { s with devices := ainsert s.devices device.id device }

/-- The source `async_remove_device`: delete + save when present, else report `False`. -/
def async_remove_device (s : Store) (device_id : String) : Store × Bool :=
  if acontains s.devices device_id then
    (async_save { s with devices := aerase s.devices device_id }, true)
  else
    (s, false)

/-- The source `async_add_command`: store under the lowercased name + save;
`False` when the device is unknown. -/
def async_add_command (s : Store) (device_id : String) (command : IRCommand) :
    Store × Bool :=
  match alookup s.devices device_id with
  | Option.none => (s, false)
  | Option.some device =>
      let device' := { device with
        commands := ainsert device.commands (lower command.name) command }
      (async_save { s with devices := ainsert s.devices device_id device' }, true)

/-- The source `async_remove_command`: delete the lowercased key + save when present. -/
def async_remove_command (s : Store) (device_id command_name : String) :
    Store × Bool :=
  match alookup s.devices device_id with
  | Option.none => (s, false)
  | Option.some device =>
      let key := lower command_name
      if acontains device.commands key then
        let device' := { device with commands := aerase device.commands key }
        (async_save { s with devices := ainsert s.devices device_id device' }, true)
      else
        (s, false)

end IRDeviceStorage

/-! ### `IRDeviceCoordinator` operations (`coordinator.py`)

Methods that can raise `HomeAssistantError` return `Except String`; the
fresh `uuid.uuid4()` and `dt_util.utcnow()` values are explicit arguments. -/

namespace IRDeviceCoordinator

/-- The source `async_add_device`: duplicate-name check (case-insensitive), then create
and store a fresh device. -/
def async_add_device (s : Store) (newId name ir_blaster_entity_id createdAt : String) :
    Except String (Store × VirtualDevice) :=
  if (IRDeviceStorage.get_device_by_name s name).isSome then
    Except.error "Device with this name already exists"
  else
    let device : VirtualDevice := {
      id := newId
      name := name
      ir_blaster_entity_id := ir_blaster_entity_id
      commands := []
      created_at := createdAt
      device_type := "generic"
      entity_configs := [] }
    Except.ok (IRDeviceStorage.async_add_device s device, device)

/-- The source `async_remove_device` (delegates to the storage layer). -/
def async_remove_device (s : Store) (device_id : String) : Store × Bool :=
  IRDeviceStorage.async_remove_device s device_id

/-- The source `async_add_command`: device lookup, duplicate-name check, `b64:`
stripping, base64 validation, then store. -/
def async_add_command (s : Store) (device_id command_name code command_type : String)
    (icon : Option String) (newId learnedAt : String) :
    Except String (Store × IRCommand) :=
  match alookup s.devices device_id with
  | Option.none => Except.error "Device not found"
  | Option.some device =>
      if acontains device.commands (lower command_name) then
        Except.error "Command already exists on device"
      else
        let code := stripB64 code
        if validBase64 code then
          let command : IRCommand := {
            id := newId
            name := command_name
            code := code
            command_type := command_type
            learned_at := learnedAt
            icon := match icon with
              | Option.some "" => Option.none  -- treat empty string as None
              | x => x }
          Except.ok ((IRDeviceStorage.async_add_command s device_id command).1, command)
        else
          Except.error "Invalid base64 code"

/-- The source `async_delete_command` (delegates to the storage layer). -/
def async_delete_command (s : Store) (device_id command_name : String) : Store × Bool :=
  IRDeviceStorage.async_remove_command s device_id command_name

/-- The source `async_learn_command`: device lookup and duplicate check, then the
`remote.learn_command` service call (its outcome is `captureOk`), then the
adapter retrieval (`retrieved`; Python falsy when `None` or empty). -/
def async_learn_command (s : Store) (device_id command_name command_type : String)
    (captureOk : Bool) (retrieved : Option String) (newId learnedAt : String) :
    Except String (Store × Option IRCommand) :=
  match alookup s.devices device_id with
  | Option.none => Except.error "Device not found"
  | Option.some device =>
      if acontains device.commands (lower command_name) then
        Except.error "Command already exists on device"
      else if ¬captureOk then
        Except.error "Learning failed"
      else
        match retrieved with
        | Option.some code =>
            if code ≠ "" then
              (async_add_command s device_id command_name code command_type
                Option.none newId learnedAt).map (fun p => (p.1, Option.some p.2))
            else
              Except.ok (s, Option.none)
        | Option.none => Except.ok (s, Option.none)

/-- The source `async_update_command` as the public surface invokes it: both call sites
(`config_flow.py`) pass exactly the keyword argument `icon=...`, so the
`setattr` loop updates the `icon` attribute alone. -/
def async_update_command_icon (s : Store) (device_id command_name : String)
    (icon : Option String) : Store × Bool :=
  match alookup s.devices device_id with
  | Option.none => (s, false)
  | Option.some device =>
      match alookup device.commands (lower command_name) with
      | Option.none => (s, false)
      | Option.some command =>
          let command' := { command with icon := icon }
          let device' := { device with
            commands := ainsert device.commands (lower command_name) command' }
          (IRDeviceStorage.async_save
            { s with devices := ainsert s.devices device_id device' }, true)

/-- Default light `EntityConfig` created by `async_update_device_type`. -/
def defaultLightConfig : EntityConfig := {
  entity_type := "light"
  enabled := true
  command_mappings := []
  state := [("is_on", PyVal.boolean false), ("brightness", PyVal.int 255),
            ("color_temp_index", PyVal.int 2)]
  options := [("brightness_mode", PyVal.str "none")] }

/-- Default cover `EntityConfig` created by `async_update_device_type`. -/
def defaultCoverConfig : EntityConfig := {
  entity_type := "cover"
  enabled := true
  command_mappings := []
  state := [("position", PyVal.int 50)]
  options := [("device_class", PyVal.str "shade")] }

/-- Default fan `EntityConfig` created by `async_update_device_type`. -/
def defaultFanConfig : EntityConfig := {
  entity_type := "fan"
  enabled := true
  command_mappings := []
  state := [("is_on", PyVal.boolean false), ("speed", PyVal.int 50)]
  options := [] }

/-- The source `async_update_device_type`. -/
def async_update_device_type (s : Store) (device_id device_type : String) :
    Store × Bool :=
  match alookup s.devices device_id with
  | Option.none => (s, false)
  | Option.some device =>
      let configs :=
        if device_type = "light" ∧ ¬acontains device.entity_configs "light" then
          ainsert device.entity_configs "light" defaultLightConfig
        else if device_type = "cover" ∧ ¬acontains device.entity_configs "cover" then
          ainsert device.entity_configs "cover" defaultCoverConfig
        else if device_type = "fan" ∧ ¬acontains device.entity_configs "fan" then
          ainsert device.entity_configs "fan" defaultFanConfig
        else device.entity_configs
      let device' := { device with device_type := device_type, entity_configs := configs }
      (IRDeviceStorage.async_save
        { s with devices := ainsert s.devices device_id device' }, true)

/-- The source `async_update_entity_config`. -/
def async_update_entity_config (s : Store) (device_id entity_type : String)
    (config : EntityConfig) : Store × Bool :=
  match alookup s.devices device_id with
  | Option.none => (s, false)
  | Option.some device =>
      let device' := { device with
        entity_configs := ainsert device.entity_configs entity_type config }
      (IRDeviceStorage.async_save
        { s with devices := ainsert s.devices device_id device' }, true)

/-- The source `async_save_entity_state`: only writes when the device exists and
already has a config for the entity type. -/
def async_save_entity_state (s : Store) (device_id entity_type : String)
    (state : List (String × PyVal)) : Store :=
  match alookup s.devices device_id with
  | Option.none => s
  | Option.some device =>
      match alookup device.entity_configs entity_type with
      | Option.none => s
      | Option.some config =>
          let config' := { config with state := state }
          let device' := { device with
            entity_configs := ainsert device.entity_configs entity_type config' }
          IRDeviceStorage.async_save
            { s with devices := ainsert s.devices device_id device' }

end IRDeviceCoordinator

/-- Store observed by the caller of `async_add_device`: a raise happens
before any mutation, so an error leaves the store as it was. -/
def runAddDevice (s : Store) (newId name blaster createdAt : String) : Store :=
  match IRDeviceCoordinator.async_add_device s newId name blaster createdAt with
  | Except.ok (s', _) => s'
  | Except.error _ => s

/-- Store observed by the caller of `async_add_command`. -/
def runAddCommand (s : Store) (device_id command_name code command_type : String)
    (icon : Option String) (newId learnedAt : String) : Store :=
  match IRDeviceCoordinator.async_add_command s device_id command_name code
      command_type icon newId learnedAt with
  | Except.ok (s', _) => s'
  | Except.error _ => s

/-! ### `IRLight._set_brightness` (`light.py`) -/

/-- Python truthiness of `mappings.get(key)` for a command slot:
false for a missing key (`None`) and for the empty string. -/
def truthy : Option String → Bool
  | Option.none => false
  | Option.some s => s ≠ ""

/-- The discrete level index of `_set_brightness`:
`round((target_brightness - 1) / 254 * (num_levels - 1))`, then
`max(0, min(index, num_levels - 1))`.  The float expression denotes the
exact rational `(target - 1) * (num_levels - 1) / 254`. -/
def discreteIndex (target : ℤ) (numLevels : ℕ) : ℤ :=
  let raw := pyRoundDiv ((target - 1) * ((numLevels : ℤ) - 1)) 254
  max 0 (min raw ((numLevels : ℤ) - 1))

namespace IRLight

/-- The commands `_set_brightness` sends, in order.  Arguments are the
values the method reads from the entity configuration:
`brightness_mode = options.get("brightness_mode", "discrete")`,
`levels = mappings.get("brightness_levels", [])`,
`up_cmd = mappings.get("brightness_up")`,
`down_cmd = mappings.get("brightness_down")`,
`step_size = options.get("brightness_step_size", 25)`,
and `self._brightness` (current) plus the target. -/
def set_brightness (brightness_mode : String) (levels : List String)
    (up_cmd down_cmd : Option String) (step_size : ℤ)
    (current target : ℤ) : List String :=
  if (brightness_mode = "discrete" ∨ brightness_mode = "both") ∧ levels ≠ [] then
    let target_index := discreteIndex target levels.length
    [levels.getD target_index.toNat ""]
  else if brightness_mode = "relative" then
    if truthy up_cmd ∧ truthy down_cmd then
      let diff := target - current
      let steps := (pyRoundDiv |diff| step_size).toNat
      if 0 < diff then List.replicate steps (up_cmd.getD "")
      else if diff < 0 then List.replicate steps (down_cmd.getD "")
      else []
    else []
  else []

end IRLight

/-! ### `VirtualRemoteEntity.async_send_command` (`remote.py`) -/

/-- Observable actions of the multi-command dispatch: an IR send (with its
repeat count) and an `asyncio.sleep`. -/
inductive RemoteEv where
  | send : String → Nat → RemoteEv
  | wait : ℚ → RemoteEv
deriving DecidableEq

namespace VirtualRemoteEntity

/-- The event trace of `async_send_command`: each name in order, looked up
case-insensitively; unknown names are logged and skipped; after a sent
command, sleep `delay_secs` when `delay_secs > 0 and i < len(commands_list) - 1`
(equivalently: the remaining name list is nonempty). -/
def async_send_command (commands : List (String × IRCommand)) (num_repeats : Nat)
    (delay_secs : ℚ) : List String → List RemoteEv
  | [] => []
  | name :: rest =>
      (if acontains commands (lower name) then
        RemoteEv.send name num_repeats ::
          (if delay_secs > 0 ∧ rest ≠ [] then [RemoteEv.wait delay_secs] else [])
      else []) ++ async_send_command commands num_repeats delay_secs rest

end VirtualRemoteEntity

/-! ### Storage migration (`storage.py`, `_migrate_v1_to_v2`) -/

/-- The per-device part of the migration:
`device_data.setdefault("device_type", DEVICE_TYPE_GENERIC)` and
`device_data.setdefault("entity_configs", {})`. -/
def migrate_device_rec (rec : List (String × PyVal)) : List (String × PyVal) :=
  setdefault (setdefault rec "device_type" (PyVal.str "generic"))
    "entity_configs" (PyVal.dict [])

/-- Migration applied to one entry of `virtual_devices` (snapshots written
by `async_save` always hold dict records). -/
def migrateVal : PyVal → PyVal
  | PyVal.dict rec => PyVal.dict (migrate_device_rec rec)
  | v => v

/-- The source `_migrate_v1_to_v2` on a raw snapshot: add the two defaults to every
device record of `virtual_devices`, then set `data["version"] = 2`. -/
def migrate_v1_to_v2 (data : List (String × PyVal)) : List (String × PyVal) :=
  let data' := match alookup data "virtual_devices" with
    | Option.some (PyVal.dict devs) =>
        ainsert data "virtual_devices"
          (PyVal.dict (devs.map (fun p => (p.1, migrateVal p.2))))
    | _ => data
  ainsert data' "version" (PyVal.int 2)

/-! ### The public surface as one step relation (for the command-immutability
invariant) -/

/-- The stored command a caller sees at `get_device(did).commands[key]`. -/
def lookupCommand (s : Store) (device_id key : String) : Option IRCommand :=
  match alookup s.devices device_id with
  | Option.some d => alookup d.commands key
  | Option.none => Option.none

/-- Store observed by the caller of `async_learn_command`. -/
def runLearnCommand (s : Store) (device_id command_name command_type : String)
    (captureOk : Bool) (retrieved : Option String) (newId learnedAt : String) : Store :=
  match IRDeviceCoordinator.async_learn_command s device_id command_name
      command_type captureOk retrieved newId learnedAt with
  | Except.ok (s', _) => s'
  | Except.error _ => s

/-- Every storage-touching operation of the public surface (services and
config flow), with the call-site arguments it is invoked with.
`updateCommandIcon` is `async_update_command` as its two call sites invoke
it (`icon=...` only); `sendCommand` issues service calls but never touches
the store. -/
inductive Op where
  | addDevice (newId name blaster createdAt : String)
  | removeDevice (device_id : String)
  | addCommand (device_id command_name code command_type : String)
      (icon : Option String) (newId learnedAt : String)
  | deleteCommand (device_id command_name : String)
  | sendCommand (device_id command_name : String) (num_repeats : Nat)
  | learnCommand (device_id command_name command_type : String)
      (captureOk : Bool) (retrieved : Option String) (newId learnedAt : String)
  | updateCommandIcon (device_id command_name : String) (icon : Option String)
  | updateDeviceType (device_id device_type : String)
  | updateEntityConfig (device_id entity_type : String) (config : EntityConfig)
  | saveEntityState (device_id entity_type : String) (st : List (String × PyVal))

/-- Effect of one public-surface operation on the store. -/
def applyOp (s : Store) : Op → Store
  | Op.addDevice a b c d => runAddDevice s a b c d
  | Op.removeDevice did => (IRDeviceCoordinator.async_remove_device s did).1
  | Op.addCommand a b c d e f g => runAddCommand s a b c d e f g
  | Op.deleteCommand a b => (IRDeviceCoordinator.async_delete_command s a b).1
  | Op.sendCommand _ _ _ => s
  | Op.learnCommand a b c ok r f g => runLearnCommand s a b c ok r f g
  | Op.updateCommandIcon a b i => (IRDeviceCoordinator.async_update_command_icon s a b i).1
  | Op.updateDeviceType a t => (IRDeviceCoordinator.async_update_device_type s a t).1
  | Op.updateEntityConfig a t c => (IRDeviceCoordinator.async_update_entity_config s a t c).1
  | Op.saveEntityState a t st => IRDeviceCoordinator.async_save_entity_state s a t st

/-- The names carried by the send events of a dispatch trace, in order. -/
def sentNames : List RemoteEv → List String
  | [] => []
  | RemoteEv.send n _ :: rest => n :: sentNames rest
  | RemoteEv.wait _ :: rest => sentNames rest

/-! ### Concrete fixtures for evaluating the operations -/

/-- A stored command (`"QQ=="` is valid base64). -/
def sampleCommand : IRCommand := {
  id := "c1", name := "Power", code := "QQ==",
  command_type := "ir", learned_at := "t0", icon := Option.none }

/-- A device holding `sampleCommand` under its lowercased name. -/
def sampleDevice : VirtualDevice := {
  id := "d1", name := "TV", ir_blaster_entity_id := "remote.blaster",
  commands := [("power", sampleCommand)], created_at := "t0",
  device_type := "generic", entity_configs := [] }

/-- A store holding `sampleDevice`, snapshot in sync. -/
def sampleStore : Store := {
  devices := [("d1", sampleDevice)], persisted := [("d1", sampleDevice)] }

/-! ### Supporting lemmas -/

theorem alookup_ainsert_self {α : Type} (l : List (String × α)) (k : String) (v : α) :
    alookup (ainsert l k v) k = some v := by
  induction l with
  | nil => simp [ainsert, alookup]
  | cons p rest ih =>
      obtain ⟨k', w⟩ := p
      by_cases h : k' = k <;> simp [ainsert, alookup, h, ih]

theorem alookup_ainsert_ne {α : Type} (l : List (String × α)) {k k' : String} (v : α)
    (h : k ≠ k') : alookup (ainsert l k v) k' = alookup l k' := by
  induction l with
  | nil => simp [ainsert, alookup, h]
  | cons p rest ih =>
      obtain ⟨k'', w⟩ := p
      by_cases h2 : k'' = k
      · subst h2; simp [ainsert, alookup, h]
      · simp [ainsert, alookup, h2, ih]

theorem ainsert_self_of_alookup {α : Type} {l : List (String × α)} {k : String} {v : α}
    (h : alookup l k = some v) : ainsert l k v = l := by
  induction l with
  | nil => simp [alookup] at h
  | cons p rest ih =>
      obtain ⟨k', w⟩ := p
      by_cases h2 : k' = k
      · subst h2
        simp [alookup] at h
        simp [ainsert, h]
      · simp [alookup, h2] at h
        simp [ainsert, h2, ih h]

theorem alookup_aerase_ne {α : Type} (l : List (String × α)) {k k' : String}
    (h : k ≠ k') : alookup (aerase l k) k' = alookup l k' := by
  induction l with
  | nil => simp [aerase]
  | cons p rest ih =>
      obtain ⟨k'', w⟩ := p
      by_cases h2 : k'' = k
      · subst h2; simp [aerase, alookup, h]
      · simp [aerase, alookup, h2, ih]

theorem akeys_cons {α : Type} (k : String) (v : α) (l : List (String × α)) :
    akeys ((k, v) :: l) = k :: akeys l := rfl

theorem alookup_eq_none_of_not_mem {α : Type} {l : List (String × α)} {k : String}
    (h : k ∉ akeys l) : alookup l k = none := by
  induction l with
  | nil => rfl
  | cons p rest ih =>
      obtain ⟨k', w⟩ := p
      rw [akeys_cons, List.mem_cons] at h
      push_neg at h
      unfold alookup
      rw [if_neg (fun he => h.1 he.symm), ih h.2]

theorem alookup_append_of_none {α : Type} {l : List (String × α)} (l' : List (String × α))
    {k : String} (h : alookup l k = none) : alookup (l ++ l') k = alookup l' k := by
  induction l with
  | nil => simp
  | cons p rest ih =>
      obtain ⟨k', w⟩ := p
      by_cases h2 : k' = k
      · simp [alookup, h2] at h
      · simp [alookup, h2] at h ⊢
        exact ih h

theorem alookup_aerase_self {α : Type} (l : List (String × α)) (k : String)
    (hnd : (akeys l).Nodup) : alookup (aerase l k) k = none := by
  induction l with
  | nil => simp [aerase, alookup]
  | cons p rest ih =>
      obtain ⟨k', w⟩ := p
      rw [akeys_cons, List.nodup_cons] at hnd
      by_cases h2 : k' = k
      · subst h2
        simp [aerase]
        exact alookup_eq_none_of_not_mem hnd.1
      · simp [aerase, alookup, h2]
        exact ih hnd.2

theorem alookup_append_of_some {α : Type} {l : List (String × α)} (l' : List (String × α))
    {k : String} {v : α} (h : alookup l k = some v) : alookup (l ++ l') k = some v := by
  induction l with
  | nil => simp [alookup] at h
  | cons p rest ih =>
      obtain ⟨k', w⟩ := p
      by_cases h2 : k' = k
      · subst h2; simp [alookup] at h ⊢; exact h
      · simp [alookup, h2] at h ⊢; exact ih h

theorem alookup_setdefault_of_some {α : Type} {l : List (String × α)} {k k' : String}
    {v : α} (w : α) (h : alookup l k = some v) :
    alookup (setdefault l k' w) k = some v := by
  unfold setdefault
  by_cases hc : acontains l k'
  · simp [hc, h]
  · simp [hc]
    exact alookup_append_of_some _ h

theorem acontains_setdefault_self {α : Type} (l : List (String × α)) (k : String) (v : α) :
    acontains (setdefault l k v) k = true := by
  unfold setdefault
  by_cases hc : acontains l k
  · simp [hc]
  · rw [if_neg hc]
    have hnone : alookup l k = none := by
      unfold acontains at hc
      exact Option.not_isSome_iff_eq_none.mp hc
    unfold acontains
    rw [alookup_append_of_none _ hnone]
    simp [alookup]

theorem setdefault_idem {α : Type} (l : List (String × α)) (k : String) (v : α) :
    setdefault (setdefault l k v) k v = setdefault l k v := by
  have h := acontains_setdefault_self l k v
  conv_lhs => rw [setdefault]
  rw [if_pos h]
/-- The integer computation agrees with the rational reference. -/
theorem pyRoundDiv_eq_pyRoundQ (num den : ℤ) (h : 0 < den) :
    pyRoundDiv num den = pyRoundQ ((num : ℚ) / (den : ℚ)) := by
  have hden : ((0:ℚ)) < (den : ℚ) := by exact_mod_cast h
  have hfl : ⌊(num : ℚ) / (den : ℚ)⌋ = num / den := by
    have hd : ((den.toNat : ℤ)) = den := Int.toNat_of_nonneg h.le
    rw [← hd]
    rw [show (((den.toNat : ℤ)) : ℚ) = ((den.toNat : ℕ) : ℚ) from by push_cast; ring]
    exact Rat.floor_intCast_div_natCast num den.toNat
  have hfrac : (num : ℚ) / (den : ℚ) - ((num / den : ℤ) : ℚ)
      = ((num - (num / den) * den : ℤ) : ℚ) / (den : ℚ) := by
    push_cast
    field_simp
    ring
  have hcast2 : ((num - (num / den) * den : ℤ) : ℚ) * 2
      = ((2 * (num - (num / den) * den) : ℤ) : ℚ) := by
    push_cast
    ring
  have hlt : ((num - (num / den) * den : ℤ) : ℚ) / (den : ℚ) < 1/2
      ↔ 2 * (num - (num / den) * den) < den := by
    rw [div_lt_div_iff₀ hden (by norm_num : (0:ℚ) < 2), hcast2, one_mul, Int.cast_lt]
  have hgt : (1:ℚ)/2 < ((num - (num / den) * den : ℤ) : ℚ) / (den : ℚ)
      ↔ den < 2 * (num - (num / den) * den) := by
    rw [div_lt_div_iff₀ (by norm_num : (0:ℚ) < 2) hden, hcast2, one_mul, Int.cast_lt]
  simp only [pyRoundDiv, pyRoundQ, hfl, hfrac, hlt, hgt]

theorem pyRoundDiv_zero_num (den : ℤ) (h : 0 < den) : pyRoundDiv 0 den = 0 := by
  unfold pyRoundDiv
  simp [Int.zero_ediv, h]

theorem pyRoundDiv_mul_self (den q : ℤ) (h : 0 < den) :
    pyRoundDiv (den * q) den = q := by
  unfold pyRoundDiv
  rw [Int.mul_ediv_cancel_left _ (ne_of_gt h)]
  have : den * q - q * den = 0 := by ring
  simp [this, h]
/-- A valid base64 string cannot itself begin with the `b64:` markup,
because `:` is not in the base64 alphabet and is not padding. -/
theorem validBase64_not_startsWith_b64 (s : String)
    (h : validBase64 s = true) : startsWith s "b64:" = false := by
  by_contra hne
  rw [Bool.not_eq_false] at hne
  unfold startsWith at hne
  have hlen : ("b64:".length) = 4 := by decide
  rw [hlen] at hne
  have htake : s.toList.take 4 = ['b', '6', '4', ':'] := by
    have hb : "b64:".toList = ['b', '6', '4', ':'] := by decide
    rw [hb] at hne
    exact eq_of_beq hne
  have hs : s.toList = 'b' :: '6' :: '4' :: ':' :: s.toList.drop 4 := by
    conv_lhs => rw [← List.take_append_drop 4 s.toList]
    rw [htake]
    rfl
  unfold validBase64 validB64List at h
  rw [hs] at h
  simp [List.takeWhile, List.all] at h
  exact absurd h.2.2.2.2.1 (by decide)

/-! ### Claims -/

/-- C10: `async_remove_device` on an absent device id, and
`async_remove_command` on an absent device id or an absent lowercased
command name, return `False`, perform no save and leave the in-memory
device map and the persisted snapshot exactly unchanged; with the target
present they delete, save, and return `True`. -/
theorem C10_remove_miss_is_noop (s : Store) (device_id command_name : String) :
    (acontains s.devices device_id = false →
      IRDeviceStorage.async_remove_device s device_id = (s, false)) ∧
    (acontains s.devices device_id = true →
      IRDeviceStorage.async_remove_device s device_id =
        ({ devices := aerase s.devices device_id,
           persisted := aerase s.devices device_id }, true)) ∧
    (alookup s.devices device_id = Option.none →
      IRDeviceStorage.async_remove_command s device_id command_name = (s, false)) ∧
    (∀ dev, alookup s.devices device_id = Option.some dev →
      acontains dev.commands (lower command_name) = false →
      IRDeviceStorage.async_remove_command s device_id command_name = (s, false)) ∧
    (∀ dev, alookup s.devices device_id = Option.some dev →
      acontains dev.commands (lower command_name) = true →
      IRDeviceStorage.async_remove_command s device_id command_name =
        (IRDeviceStorage.async_save
            { s with
              devices :=
                ainsert s.devices device_id
                  ({ dev with
                     commands := aerase dev.commands (lower command_name) }) },
          true)) := by
  refine ⟨?_, ?_, ?_, ?_, ?_⟩
  · intro h
    unfold IRDeviceStorage.async_remove_device
    simp [h]
  · intro h
    unfold IRDeviceStorage.async_remove_device IRDeviceStorage.async_save
    simp [h]
  · intro h
    unfold IRDeviceStorage.async_remove_command
    rw [h]
  · intro dev h1 h2
    unfold IRDeviceStorage.async_remove_command
    rw [h1]
    simp [h2]
  · intro dev h1 h2
    unfold IRDeviceStorage.async_remove_command
    rw [h1]
    simp [h2]

/-- Witness for C10 on the concrete fixture store. -/
theorem C10_remove_miss_is_noop_witness :
    IRDeviceStorage.async_remove_device sampleStore "absent" = (sampleStore, false) ∧
    IRDeviceStorage.async_remove_device sampleStore "d1" =
      ({ devices := [], persisted := [] }, true) ∧
    IRDeviceStorage.async_remove_command sampleStore "absent" "Power" =
      (sampleStore, false) ∧
    IRDeviceStorage.async_remove_command sampleStore "d1" "Mute" =
      (sampleStore, false) ∧
    IRDeviceStorage.async_remove_command sampleStore "d1" "POWER" =
      ({ devices := [("d1", { sampleDevice with commands := [] })],
         persisted := [("d1", { sampleDevice with commands := [] })] }, true) :=
  ⟨(C10_remove_miss_is_noop sampleStore "absent" "Power").1 rfl,
   (C10_remove_miss_is_noop sampleStore "d1" "Power").2.1 rfl,
   (C10_remove_miss_is_noop sampleStore "absent" "Power").2.2.1 rfl,
   (C10_remove_miss_is_noop sampleStore "d1" "Mute").2.2.2.1 sampleDevice rfl rfl,
   (C10_remove_miss_is_noop sampleStore "d1" "POWER").2.2.2.2 sampleDevice rfl rfl⟩

/-- C1: adding a device whose name collides with an existing device's name
up to case, adding a command whose lowercased name already exists on the
device, or adding a command whose code (after stripping an optional `b64:`
marker) is not valid base64, all raise before any state mutation: the
caller's store (device map, target device commands, persisted snapshot) is
exactly as before. -/
theorem C1_add_error_paths_no_mutation
    (s : Store) (newId name blaster createdAt : String)
    (device_id command_name code command_type : String)
    (icon : Option String) (cmdId learnedAt : String) :
    ((∃ p ∈ s.devices, lower p.2.name = lower name) →
      (∃ e, IRDeviceCoordinator.async_add_device s newId name blaster createdAt
          = Except.error e) ∧
      runAddDevice s newId name blaster createdAt = s) ∧
    (∀ dev, alookup s.devices device_id = Option.some dev →
      acontains dev.commands (lower command_name) = true →
      (∃ e, IRDeviceCoordinator.async_add_command s device_id command_name code
          command_type icon cmdId learnedAt = Except.error e) ∧
      runAddCommand s device_id command_name code command_type icon cmdId learnedAt
        = s) ∧
    (∀ dev, alookup s.devices device_id = Option.some dev →
      acontains dev.commands (lower command_name) = false →
      validBase64 (stripB64 code) = false →
      (∃ e, IRDeviceCoordinator.async_add_command s device_id command_name code
          command_type icon cmdId learnedAt = Except.error e) ∧
      runAddCommand s device_id command_name code command_type icon cmdId learnedAt
        = s) := by
  refine ⟨?_, ?_, ?_⟩
  · intro h
    have hfind : (IRDeviceStorage.get_device_by_name s name).isSome = true := by
      unfold IRDeviceStorage.get_device_by_name
      obtain ⟨p, hp, hname⟩ := h
      rw [Option.isSome_map']
      rw [List.find?_isSome]
      exact ⟨p, hp, by simpa using hname⟩
    unfold IRDeviceCoordinator.async_add_device runAddDevice
    simp only [IRDeviceCoordinator.async_add_device, hfind]
    exact ⟨⟨_, rfl⟩, rfl⟩
  · intro dev h1 h2
    unfold IRDeviceCoordinator.async_add_command runAddCommand
    simp only [IRDeviceCoordinator.async_add_command, h1, h2]
    exact ⟨⟨_, rfl⟩, rfl⟩
  · intro dev h1 h2 h3
    unfold IRDeviceCoordinator.async_add_command runAddCommand
    simp only [IRDeviceCoordinator.async_add_command, h1, h2, h3]
    exact ⟨⟨_, rfl⟩, rfl⟩

/-- Witness for C1: duplicate device name up to case, duplicate command
name up to case, and a malformed base64 code, on the fixture store. -/
theorem C1_add_error_paths_no_mutation_witness :
    ((∃ p ∈ sampleStore.devices, lower p.2.name = lower "tv") ∧
      runAddDevice sampleStore "d9" "tv" "remote.blaster" "t1" = sampleStore) ∧
    (alookup sampleStore.devices "d1" = Option.some sampleDevice ∧
      acontains sampleDevice.commands (lower "POWER") = true ∧
      runAddCommand sampleStore "d1" "POWER" "QQ==" "ir" Option.none "c9" "t1"
        = sampleStore) ∧
    (acontains sampleDevice.commands (lower "Mute") = false ∧
      validBase64 (stripB64 "not base64!") = false ∧
      runAddCommand sampleStore "d1" "Mute" "not base64!" "ir" Option.none "c9" "t1"
        = sampleStore) := by
  refine ⟨⟨?_, ?_⟩, ⟨rfl, rfl, ?_⟩, ⟨rfl, rfl, ?_⟩⟩
  · exact ⟨("d1", sampleDevice), by simp [sampleStore], by decide⟩
  · exact ((C1_add_error_paths_no_mutation sampleStore "d9" "tv" "remote.blaster"
      "t1" "d1" "POWER" "QQ==" "ir" Option.none "c9" "t1").1
      ⟨("d1", sampleDevice), by simp [sampleStore], by decide⟩).2
  · exact ((C1_add_error_paths_no_mutation sampleStore "d9" "tv" "remote.blaster"
      "t1" "d1" "POWER" "QQ==" "ir" Option.none "c9" "t1").2.1
      sampleDevice rfl rfl).2
  · exact ((C1_add_error_paths_no_mutation sampleStore "d9" "tv" "remote.blaster"
      "t1" "d1" "Mute" "not base64!" "ir" Option.none "c9" "t1").2.2
      sampleDevice rfl rfl rfl).2

/-- C2: a code accepted by `async_add_command` (valid base64 after the
optional `b64:` marker is stripped) under a fresh command name round-trips:
the stored command sits at the lowercased name, its `code` is exactly the
input with the `b64:` marker removed, and the stored string carries no
`b64:` marker itself. -/
theorem C2_code_roundtrip (s : Store)
    (device_id command_name code command_type : String)
    (icon : Option String) (cmdId learnedAt : String) (dev : VirtualDevice)
    (h1 : alookup s.devices device_id = Option.some dev)
    (h2 : acontains dev.commands (lower command_name) = false)
    (h3 : validBase64 (stripB64 code) = true) :
    ∃ s' cmd,
      IRDeviceCoordinator.async_add_command s device_id command_name code
        command_type icon cmdId learnedAt = Except.ok (s', cmd) ∧
      lookupCommand s' device_id (lower command_name) = Option.some cmd ∧
      cmd.code = stripB64 code ∧
      startsWith cmd.code "b64:" = false := by
  unfold IRDeviceCoordinator.async_add_command
  rw [h1]
  simp only [h2, Bool.false_eq_true, if_false, h3, if_true]
  refine ⟨_, _, rfl, ?_, rfl, validBase64_not_startsWith_b64 _ h3⟩
  unfold IRDeviceStorage.async_add_command
  rw [h1]
  unfold lookupCommand IRDeviceStorage.async_save
  simp only [alookup_ainsert_self]

/-- Witness for C2 with a `b64:`-marked valid code on the fixture store. -/
theorem C2_code_roundtrip_witness :
    (acontains sampleDevice.commands (lower "Mute") = false ∧
      validBase64 (stripB64 "b64:UXc=") = true) ∧
    ∃ s' cmd,
      IRDeviceCoordinator.async_add_command sampleStore "d1" "Mute" "b64:UXc="
        "ir" Option.none "c9" "t1" = Except.ok (s', cmd) ∧
      lookupCommand s' "d1" (lower "Mute") = Option.some cmd ∧
      cmd.code = stripB64 "b64:UXc=" ∧
      startsWith cmd.code "b64:" = false :=
  ⟨⟨rfl, rfl⟩,
   C2_code_roundtrip sampleStore "d1" "Mute" "b64:UXc=" "ir" Option.none
     "c9" "t1" sampleDevice rfl rfl rfl⟩

/-- C3: with a nonempty level list and mode `discrete` or `both`,
`_set_brightness` sends exactly the command at
`max(0, min(round((target - 1) / 254 * (N - 1)), N - 1))`; the index
formula agrees with the rational form of the spec; `target = 1` gives
index `0` and `target = 255` gives `N - 1` for every `N ≥ 1`; and with 5
levels, `target = 200` gives index 3, sending the 4th level. -/
theorem C3_discrete_brightness (brightness_mode : String) (levels : List String)
    (up_cmd down_cmd : Option String) (step_size : ℤ) (current target : ℤ)
    (N : ℕ) :
    ((brightness_mode = "discrete" ∨ brightness_mode = "both") → levels ≠ [] →
      IRLight.set_brightness brightness_mode levels up_cmd down_cmd step_size
          current target
        = [levels.getD (discreteIndex target levels.length).toNat ""]) ∧
    (discreteIndex target N
      = max 0 (min (pyRoundQ (((target : ℚ) - 1) / 254 * ((N : ℚ) - 1)))
          ((N : ℤ) - 1))) ∧
    (1 ≤ N → discreteIndex 1 N = 0) ∧
    (1 ≤ N → discreteIndex 255 N = (N : ℤ) - 1) ∧
    discreteIndex 200 5 = 3 ∧
    IRLight.set_brightness "discrete" ["b1", "b2", "b3", "b4", "b5"]
      Option.none Option.none 25 255 200 = ["b4"] := by
  refine ⟨?_, ?_, ?_, ?_, by decide, by decide⟩
  · intro h1 h2
    unfold IRLight.set_brightness
    rw [if_pos ⟨h1, h2⟩]
  · unfold discreteIndex
    rw [pyRoundDiv_eq_pyRoundQ _ _ (by decide)]
    have harg : (((target - 1) * ((N : ℤ) - 1) : ℤ) : ℚ) / ((254 : ℤ) : ℚ)
        = ((target : ℚ) - 1) / 254 * ((N : ℚ) - 1) := by
      push_cast
      ring
    rw [harg]
  · intro hN
    unfold discreteIndex
    have : ((1:ℤ) - 1) * ((N : ℤ) - 1) = 0 := by ring
    rw [this, pyRoundDiv_zero_num 254 (by decide)]
    have hN' : (1:ℤ) ≤ (N : ℤ) := by exact_mod_cast hN
    show (0:ℤ) ⊔ 0 ⊓ ((N:ℤ) - 1) = 0
    rw [min_eq_left (by omega), max_self]
  · intro hN
    unfold discreteIndex
    have : ((255:ℤ) - 1) * ((N : ℤ) - 1) = 254 * ((N : ℤ) - 1) := by ring
    rw [this, pyRoundDiv_mul_self 254 _ (by decide)]
    have hN' : (1:ℤ) ≤ (N : ℤ) := by exact_mod_cast hN
    show (0:ℤ) ⊔ ((N:ℤ) - 1) ⊓ ((N:ℤ) - 1) = (N:ℤ) - 1
    rw [min_self]
    exact max_eq_right (by omega)

/-- Witness for C3 on concrete configurations. -/
theorem C3_discrete_brightness_witness :
    (("both" = "discrete" ∨ "both" = "both") ∧ (["a", "b"] : List String) ≠ [] ∧
      IRLight.set_brightness "both" ["a", "b"] Option.none Option.none 25 1 128
        = [["a", "b"].getD (discreteIndex 128 2).toNat ""]) ∧
    ((1:ℕ) ≤ 3 ∧ discreteIndex 1 3 = 0 ∧ discreteIndex 255 3 = (3:ℤ) - 1) :=
  ⟨⟨Or.inr rfl, by decide,
    (C3_discrete_brightness "both" ["a", "b"] Option.none Option.none 25 1 128
      3).1 (Or.inr rfl) (by decide)⟩,
   ⟨by decide,
    (C3_discrete_brightness "both" ["a", "b"] Option.none Option.none 25 1 128
      3).2.2.1 (by decide),
    (C3_discrete_brightness "both" ["a", "b"] Option.none Option.none 25 1 128
      3).2.2.2.1 (by decide)⟩⟩

/-- C4: in `relative` mode with both `brightness_up` and `brightness_down`
mapped, `_set_brightness` emits `round(|target - current| / step_size)`
repetitions of the up command when `target > current`, of the down command
when `target < current`, and nothing when they are equal (the step count
is then 0). -/
theorem C4_relative_steps (up down : String) (hu : up ≠ "") (hd : down ≠ "")
    (levels : List String) (step_size current target : ℤ)
    (hstep : 0 < step_size) :
    (IRLight.set_brightness "relative" levels (Option.some up)
        (Option.some down) step_size current target).length
      = (pyRoundDiv |target - current| step_size).toNat ∧
    (current < target →
      IRLight.set_brightness "relative" levels (Option.some up)
          (Option.some down) step_size current target
        = List.replicate (pyRoundDiv |target - current| step_size).toNat up) ∧
    (target < current →
      IRLight.set_brightness "relative" levels (Option.some up)
          (Option.some down) step_size current target
        = List.replicate (pyRoundDiv |target - current| step_size).toNat down) ∧
    (target = current →
      IRLight.set_brightness "relative" levels (Option.some up)
          (Option.some down) step_size current target = [] ∧
      pyRoundDiv |target - current| step_size = 0) := by
  have hmode : ¬(("relative" = "discrete" ∨ "relative" = "both")
      ∧ levels ≠ []) := by
    rintro ⟨h | h, -⟩ <;> simp at h
  have htruthy : (truthy (Option.some up) ∧ truthy (Option.some down)) := by
    constructor <;> simp [truthy, hu, hd]
  refine ⟨?_, ?_, ?_, ?_⟩
  · unfold IRLight.set_brightness
    rw [if_neg hmode, if_pos rfl, if_pos htruthy]
    rcases lt_trichotomy current target with h | h | h
    · rw [if_pos (by omega : (0:ℤ) < target - current)]
      exact List.length_replicate _ _
    · rw [if_neg (by omega : ¬(0:ℤ) < target - current),
        if_neg (by omega : ¬target - current < 0)]
      rw [show target - current = 0 from by omega]
      simp [pyRoundDiv_zero_num _ hstep]
    · rw [if_neg (by omega : ¬(0:ℤ) < target - current),
        if_pos (by omega : target - current < 0)]
      exact List.length_replicate _ _
  · intro h
    unfold IRLight.set_brightness
    rw [if_neg hmode, if_pos rfl, if_pos htruthy,
      if_pos (by omega : (0:ℤ) < target - current)]
    rfl
  · intro h
    unfold IRLight.set_brightness
    rw [if_neg hmode, if_pos rfl, if_pos htruthy,
      if_neg (by omega : ¬(0:ℤ) < target - current),
      if_pos (by omega : target - current < 0)]
    rfl
  · intro h
    subst h
    unfold IRLight.set_brightness
    rw [if_neg hmode, if_pos rfl, if_pos htruthy,
      if_neg (by omega : ¬(0:ℤ) < target - target),
      if_neg (by omega : ¬target - target < 0)]
    rw [show target - target = 0 from by omega]
    simpa using pyRoundDiv_zero_num _ hstep

/-- Witness for C4: from brightness 100 to 200 with step 25, four `up`
commands are emitted. -/
theorem C4_relative_steps_witness :
    ("up" ≠ "" ∧ "down" ≠ "" ∧ (0:ℤ) < 25 ∧ (100:ℤ) < 200) ∧
    IRLight.set_brightness "relative" [] (Option.some "up")
        (Option.some "down") 25 100 200
      = List.replicate (pyRoundDiv |(200:ℤ) - 100| 25).toNat "up" :=
  ⟨⟨by decide, by decide, by decide, by decide⟩,
   (C4_relative_steps "up" "down" (by decide) (by decide) [] 25 100 200
     (by decide)).2.1 (by decide)⟩

/-- C5: the code does NOT fall back to the relative algorithm in mode
`both`: with `brightness_mode = "both"`, no `brightness_levels`, and both
`brightness_up`/`brightness_down` mapped, `_set_brightness` emits nothing
(first conjunct evaluates the code at the failing input), whereas the
relative algorithm the spec prescribes as the fallback would emit
`round(100 / 25) = 4` up commands (second conjunct). -/
theorem C5_both_without_levels_emits_nothing :
    IRLight.set_brightness "both" [] (Option.some "up") (Option.some "down")
      25 100 200 = [] ∧
    IRLight.set_brightness "relative" [] (Option.some "up")
      (Option.some "down") 25 100 200 = ["up", "up", "up", "up"] := by
  constructor <;> decide

theorem sentNames_append (a b : List RemoteEv) :
    sentNames (a ++ b) = sentNames a ++ sentNames b := by
  induction a with
  | nil => rfl
  | cons e rest ih => cases e <;> simp [sentNames, ih]

/-- C6: the multi-command dispatch processes the given names strictly in
order, looks each up case-insensitively, skips unknown names without
aborting (the send events are exactly the known names, in order), and
inserts a positive delay only after a sent command that is not the final
name — never after the final one.  The last conjunct is the spec's
example trace. -/
theorem C6_multi_command_dispatch (commands : List (String × IRCommand))
    (r : Nat) (d : ℚ) :
    (∀ names,
      sentNames (VirtualRemoteEntity.async_send_command commands r d names)
        = names.filter (fun n => acontains commands (lower n))) ∧
    (∀ ys z,
      VirtualRemoteEntity.async_send_command commands r d (ys ++ [z])
        = (ys.map (fun nm =>
            if acontains commands (lower nm) then
              RemoteEv.send nm r :: (if d > 0 then [RemoteEv.wait d] else [])
            else [])).flatten
          ++ (if acontains commands (lower z) then [RemoteEv.send z r] else [])) ∧
    (∀ c1 c2, VirtualRemoteEntity.async_send_command
        [("power", c1), ("volume_up", c2)] 1 2 ["power", "volume_up", "power"]
      = [RemoteEv.send "power" 1, RemoteEv.wait 2, RemoteEv.send "volume_up" 1,
         RemoteEv.wait 2, RemoteEv.send "power" 1]) := by
  refine ⟨?_, ?_, ?_⟩
  · intro names
    induction names with
    | nil => rfl
    | cons nm rest ih =>
        rw [show VirtualRemoteEntity.async_send_command commands r d (nm :: rest)
          = (if acontains commands (lower nm) then
              RemoteEv.send nm r ::
                (if d > 0 ∧ rest ≠ [] then [RemoteEv.wait d] else [])
            else []) ++ VirtualRemoteEntity.async_send_command commands r d rest
          from rfl]
        rw [sentNames_append, List.filter_cons]
        by_cases hk : acontains commands (lower nm)
        · rw [if_pos hk]
          have hhead : sentNames (RemoteEv.send nm r ::
              (if d > 0 ∧ rest ≠ [] then [RemoteEv.wait d] else [])) = [nm] := by
            split <;> rfl
          rw [hhead, ih]
          simp [hk]
        · rw [if_neg hk, ih]
          simp [hk, sentNames]
  · intro ys z
    induction ys with
    | nil =>
        rw [show (([] : List String) ++ [z]) = [z] from rfl]
        rw [show VirtualRemoteEntity.async_send_command commands r d [z]
          = (if acontains commands (lower z) then
              RemoteEv.send z r ::
                (if d > 0 ∧ ([] : List String) ≠ [] then [RemoteEv.wait d] else [])
            else []) ++ [] from rfl]
        by_cases hz : acontains commands (lower z) <;> simp [hz]
    | cons y ys ih =>
        rw [show ((y :: ys) ++ [z]) = y :: (ys ++ [z]) from rfl]
        rw [show VirtualRemoteEntity.async_send_command commands r d
            (y :: (ys ++ [z]))
          = (if acontains commands (lower y) then
              RemoteEv.send y r ::
                (if d > 0 ∧ ys ++ [z] ≠ [] then [RemoteEv.wait d] else [])
            else []) ++ VirtualRemoteEntity.async_send_command commands r d
              (ys ++ [z]) from rfl]
        have hcond : (d > 0 ∧ ys ++ [z] ≠ []) ↔ d > 0 := by simp
        rw [if_congr hcond rfl rfl, ih]
        by_cases hy : acontains commands (lower y) <;> simp [hy]
  · intro c1 c2
    rfl

/-- C7: when learning, a duplicate command name (up to case) fails with an
error that neither depends on nor follows the capture step, leaving the
store untouched; and a successful capture whose adapter retrieval returns
nothing yields the explicit `None` result, with no command created and the
command map and persisted snapshot unchanged. -/
theorem C7_learn_duplicate_and_no_match (s : Store)
    (device_id command_name command_type cmdId learnedAt : String)
    (dev : VirtualDevice)
    (h1 : alookup s.devices device_id = Option.some dev) :
    (acontains dev.commands (lower command_name) = true →
      (∀ ok1 ok2 r1 r2,
        IRDeviceCoordinator.async_learn_command s device_id command_name
            command_type ok1 r1 cmdId learnedAt
          = IRDeviceCoordinator.async_learn_command s device_id command_name
              command_type ok2 r2 cmdId learnedAt) ∧
      (∀ ok r, ∃ e, IRDeviceCoordinator.async_learn_command s device_id
          command_name command_type ok r cmdId learnedAt = Except.error e) ∧
      (∀ ok r, runLearnCommand s device_id command_name command_type ok r
          cmdId learnedAt = s)) ∧
    (acontains dev.commands (lower command_name) = false →
      IRDeviceCoordinator.async_learn_command s device_id command_name
          command_type true Option.none cmdId learnedAt
        = Except.ok (s, Option.none) ∧
      runLearnCommand s device_id command_name command_type true Option.none
          cmdId learnedAt = s) := by
  constructor
  · intro h2
    refine ⟨?_, ?_, ?_⟩
    · intro ok1 ok2 r1 r2
      unfold IRDeviceCoordinator.async_learn_command
      rw [h1]
      simp [h2]
    · intro ok r
      unfold IRDeviceCoordinator.async_learn_command
      rw [h1]
      simp [h2]
    · intro ok r
      unfold runLearnCommand IRDeviceCoordinator.async_learn_command
      rw [h1]
      simp [h2]
  · intro h2
    constructor
    · unfold IRDeviceCoordinator.async_learn_command
      rw [h1]
      simp [h2]
    · unfold runLearnCommand IRDeviceCoordinator.async_learn_command
      rw [h1]
      simp [h2]

/-- Witness for C7 on the fixture store: duplicate name `POWER`, and a
fresh name `Mute` with successful capture but empty retrieval. -/
theorem C7_learn_duplicate_and_no_match_witness :
    (acontains sampleDevice.commands (lower "POWER") = true ∧
      runLearnCommand sampleStore "d1" "POWER" "ir" true
        (Option.some "QQ==") "c9" "t1" = sampleStore) ∧
    (acontains sampleDevice.commands (lower "Mute") = false ∧
      IRDeviceCoordinator.async_learn_command sampleStore "d1" "Mute" "ir"
        true Option.none "c9" "t1" = Except.ok (sampleStore, Option.none)) :=
  ⟨⟨rfl,
    ((C7_learn_duplicate_and_no_match sampleStore "d1" "POWER" "ir" "c9" "t1"
      sampleDevice rfl).1 rfl).2.2 true (Option.some "QQ==")⟩,
   ⟨rfl,
    ((C7_learn_duplicate_and_no_match sampleStore "d1" "Mute" "ir" "c9" "t1"
      sampleDevice rfl).2 rfl).1⟩⟩

theorem setdefault_of_acontains {α : Type} {l : List (String × α)} {k : String}
    (v : α) (h : acontains l k = true) : setdefault l k v = l := by
  unfold setdefault
  rw [if_pos h]

theorem acontains_setdefault_mono {α : Type} {l : List (String × α)}
    {k k' : String} (v : α) (h : acontains l k = true) :
    acontains (setdefault l k' v) k = true := by
  unfold acontains at h ⊢
  rw [Option.isSome_iff_exists] at h
  obtain ⟨w, hw⟩ := h
  rw [alookup_setdefault_of_some v hw]
  rfl

theorem migrate_device_rec_idem (rec : List (String × PyVal)) :
    migrate_device_rec (migrate_device_rec rec) = migrate_device_rec rec := by
  unfold migrate_device_rec
  have h1 : setdefault (setdefault (setdefault rec "device_type"
        (PyVal.str "generic")) "entity_configs" (PyVal.dict []))
      "device_type" (PyVal.str "generic")
      = setdefault (setdefault rec "device_type" (PyVal.str "generic"))
          "entity_configs" (PyVal.dict []) :=
    setdefault_of_acontains _
      (acontains_setdefault_mono _ (acontains_setdefault_self _ _ _))
  rw [h1, setdefault_idem]

theorem migrateVal_idem (v : PyVal) : migrateVal (migrateVal v) = migrateVal v := by
  cases v <;> simp [migrateVal, migrate_device_rec_idem]

theorem alookup_map_snd {α β : Type} (l : List (String × α)) (g : α → β)
    (k : String) :
    alookup (l.map (fun p => (p.1, g p.2))) k = (alookup l k).map g := by
  induction l with
  | nil => rfl
  | cons p rest ih =>
      obtain ⟨k', w⟩ := p
      by_cases h : k' = k <;> simp [alookup, h, ih]

/-- C8: the v1-to-v2 migration is idempotent; it leaves every existing
field of every device record (in particular `device_type` and
`entity_configs` when already present) with its value unchanged — it only
ever adds the two defaulted fields. -/
theorem C8_migration_idempotent_additive (data : List (String × PyVal)) :
    migrate_v1_to_v2 (migrate_v1_to_v2 data) = migrate_v1_to_v2 data ∧
    (∀ devs devId rec k v,
      alookup data "virtual_devices" = Option.some (PyVal.dict devs) →
      alookup devs devId = Option.some (PyVal.dict rec) →
      alookup rec k = Option.some v →
      ∃ devs',
        alookup (migrate_v1_to_v2 data) "virtual_devices"
          = Option.some (PyVal.dict devs') ∧
        alookup devs' devId = Option.some (PyVal.dict (migrate_device_rec rec)) ∧
        alookup (migrate_device_rec rec) k = Option.some v) ∧
    (∀ rec v, alookup rec "device_type" = Option.some v →
      alookup (migrate_device_rec rec) "device_type" = Option.some v) ∧
    (∀ rec v, alookup rec "entity_configs" = Option.some v →
      alookup (migrate_device_rec rec) "entity_configs" = Option.some v) := by
  refine ⟨?_, ?_, ?_, ?_⟩
  · rcases hvd : alookup data "virtual_devices" with _ | val
    · have h2 : alookup (ainsert data "version" (PyVal.int 2)) "virtual_devices"
          = alookup data "virtual_devices" := alookup_ainsert_ne _ _ (by decide)
      simp only [migrate_v1_to_v2, hvd, h2]
      exact ainsert_self_of_alookup (alookup_ainsert_self _ _ _)
    · cases val with
      | dict devs =>
          have h2 : alookup
              (ainsert (ainsert data "virtual_devices"
                (PyVal.dict (devs.map (fun p => (p.1, migrateVal p.2)))))
                "version" (PyVal.int 2)) "virtual_devices"
              = Option.some (PyVal.dict
                  (devs.map (fun p => (p.1, migrateVal p.2)))) := by
            rw [alookup_ainsert_ne _ _ (by decide)]
            exact alookup_ainsert_self _ _ _
          have hmap : (devs.map (fun p => (p.1, migrateVal p.2))).map
              (fun p => (p.1, migrateVal p.2))
              = devs.map (fun p => (p.1, migrateVal p.2)) := by
            rw [List.map_map]
            refine List.map_congr_left ?_
            intro p _
            simp [Function.comp, migrateVal_idem]
          simp only [migrate_v1_to_v2, hvd, h2, hmap]
          rw [ainsert_self_of_alookup h2]
          exact ainsert_self_of_alookup (alookup_ainsert_self _ _ _)
      | str sv =>
          have h2 : alookup (ainsert data "version" (PyVal.int 2)) "virtual_devices"
              = alookup data "virtual_devices" := alookup_ainsert_ne _ _ (by decide)
          simp only [migrate_v1_to_v2, hvd, h2]
          exact ainsert_self_of_alookup (alookup_ainsert_self _ _ _)
      | int iv =>
          have h2 : alookup (ainsert data "version" (PyVal.int 2)) "virtual_devices"
              = alookup data "virtual_devices" := alookup_ainsert_ne _ _ (by decide)
          simp only [migrate_v1_to_v2, hvd, h2]
          exact ainsert_self_of_alookup (alookup_ainsert_self _ _ _)
      | boolean bv =>
          have h2 : alookup (ainsert data "version" (PyVal.int 2)) "virtual_devices"
              = alookup data "virtual_devices" := alookup_ainsert_ne _ _ (by decide)
          simp only [migrate_v1_to_v2, hvd, h2]
          exact ainsert_self_of_alookup (alookup_ainsert_self _ _ _)
      | none =>
          have h2 : alookup (ainsert data "version" (PyVal.int 2)) "virtual_devices"
              = alookup data "virtual_devices" := alookup_ainsert_ne _ _ (by decide)
          simp only [migrate_v1_to_v2, hvd, h2]
          exact ainsert_self_of_alookup (alookup_ainsert_self _ _ _)
      | list lv =>
          have h2 : alookup (ainsert data "version" (PyVal.int 2)) "virtual_devices"
              = alookup data "virtual_devices" := alookup_ainsert_ne _ _ (by decide)
          simp only [migrate_v1_to_v2, hvd, h2]
          exact ainsert_self_of_alookup (alookup_ainsert_self _ _ _)
  · intro devs devId rec k v hvd hdev hk
    refine ⟨devs.map (fun p => (p.1, migrateVal p.2)), ?_, ?_, ?_⟩
    · simp only [migrate_v1_to_v2, hvd]
      rw [alookup_ainsert_ne _ _ (by decide)]
      exact alookup_ainsert_self _ _ _
    · rw [alookup_map_snd, hdev]
      rfl
    · exact alookup_setdefault_of_some _ (alookup_setdefault_of_some _ hk)
  · intro rec v h
    exact alookup_setdefault_of_some _ (alookup_setdefault_of_some _ h)
  · intro rec v h
    exact alookup_setdefault_of_some _ (alookup_setdefault_of_some _ h)

/-- Witness for C8: a v1 snapshot with one device record, and a record
already carrying `device_type`. -/
theorem C8_migration_witness :
    (alookup
        [("version", PyVal.int 1),
         ("virtual_devices", PyVal.dict
           [("d1", PyVal.dict [("name", PyVal.str "TV")])])]
        "virtual_devices"
      = Option.some (PyVal.dict [("d1", PyVal.dict [("name", PyVal.str "TV")])])) ∧
    (∃ devs',
      alookup (migrate_v1_to_v2
          [("version", PyVal.int 1),
           ("virtual_devices", PyVal.dict
             [("d1", PyVal.dict [("name", PyVal.str "TV")])])]) "virtual_devices"
        = Option.some (PyVal.dict devs') ∧
      alookup devs' "d1" = Option.some (PyVal.dict
        (migrate_device_rec [("name", PyVal.str "TV")])) ∧
      alookup (migrate_device_rec [("name", PyVal.str "TV")]) "name"
        = Option.some (PyVal.str "TV")) ∧
    alookup (migrate_device_rec [("device_type", PyVal.str "light")])
        "device_type"
      = Option.some (PyVal.str "light") :=
  ⟨rfl,
   (C8_migration_idempotent_additive
       [("version", PyVal.int 1),
        ("virtual_devices", PyVal.dict
          [("d1", PyVal.dict [("name", PyVal.str "TV")])])]).2.1
     [("d1", PyVal.dict [("name", PyVal.str "TV")])] "d1"
     [("name", PyVal.str "TV")] "name" (PyVal.str "TV") rfl rfl rfl,
   (C8_migration_idempotent_additive []).2.2.1
     [("device_type", PyVal.str "light")] (PyVal.str "light") rfl⟩

theorem lookupCommand_def (s : Store) (device_id key : String) :
    lookupCommand s device_id key
      = Option.bind (alookup s.devices device_id)
          (fun d => alookup d.commands key) := by
  unfold lookupCommand
  rcases alookup s.devices device_id with _ | d <;> rfl

theorem eq_of_lookup (s : Store) (device_id key : String) (dev : VirtualDevice)
    (c c' : IRCommand) (h1 : alookup s.devices device_id = Option.some dev)
    (h2 : alookup dev.commands key = Option.some c)
    (h3 : lookupCommand s device_id key = Option.some c') : c' = c := by
  rw [lookupCommand_def, h1, Option.some_bind, h2] at h3
  exact (Option.some.inj h3).symm

theorem addCommand_store_preserves (s : Store)
    (did cn code ct : String) (icon : Option String) (cid lat : String)
    (device_id key : String) (dev : VirtualDevice) (c c' : IRCommand)
    (h1 : alookup s.devices device_id = Option.some dev)
    (h2 : alookup dev.commands key = Option.some c)
    (h3 : lookupCommand (runAddCommand s did cn code ct icon cid lat)
        device_id key = Option.some c') : c' = c := by
  unfold runAddCommand IRDeviceCoordinator.async_add_command at h3
  rcases halook : alookup s.devices did with _ | dev0
  · simp only [halook] at h3
    exact eq_of_lookup s device_id key dev c c' h1 h2 h3
  · simp only [halook] at h3
    by_cases hdup : acontains dev0.commands (lower cn) = true
    · simp only [hdup, if_true] at h3
      exact eq_of_lookup s device_id key dev c c' h1 h2 h3
    · simp only [Bool.not_eq_true] at hdup
      simp only [hdup, Bool.false_eq_true, if_false] at h3
      by_cases hval : validBase64 (stripB64 code) = true
      · simp only [hval, if_true, IRDeviceStorage.async_add_command, halook,
          IRDeviceStorage.async_save] at h3
        rw [lookupCommand_def] at h3
        by_cases hid : did = device_id
        · subst hid
          rw [h1] at halook
          have hdev0 : dev0 = dev := (Option.some.inj halook).symm
          subst hdev0
          simp only [alookup_ainsert_self, Option.some_bind] at h3
          have hkey : lower cn ≠ key := by
            intro he
            rw [he] at hdup
            unfold acontains at hdup
            rw [h2] at hdup
            simp at hdup
          rw [alookup_ainsert_ne _ _ hkey, h2] at h3
          exact (Option.some.inj h3).symm
        · simp only [alookup_ainsert_ne _ _ hid, h1, Option.some_bind, h2] at h3
          exact (Option.some.inj h3).symm
      · simp only [hval, Bool.false_eq_true, if_false] at h3
        exact eq_of_lookup s device_id key dev c c' h1 h2 h3

theorem runLearnCommand_cases (s : Store) (did cn ct : String) (ok : Bool)
    (r : Option String) (cid lat : String) :
    runLearnCommand s did cn ct ok r cid lat = s
    ∨ ∃ code, runLearnCommand s did cn ct ok r cid lat
        = runAddCommand s did cn code ct Option.none cid lat := by
  unfold runLearnCommand IRDeviceCoordinator.async_learn_command
  rcases halook : alookup s.devices did with _ | dev0
  · left
    rfl
  · simp only [halook]
    by_cases hdup : acontains dev0.commands (lower cn) = true
    · rw [if_pos hdup]
      left
      rfl
    · rw [if_neg (by simp [hdup])]
      by_cases hok : ok = true
      · subst hok
        rw [if_neg (by simp)]
        rcases r with _ | code
        · left
          rfl
        · dsimp only
          by_cases hcode : code = ""
          · subst hcode
            rw [if_neg (by simp)]
            left
            rfl
          · rw [if_pos hcode]
            right
            refine ⟨code, ?_⟩
            unfold runAddCommand
            rcases IRDeviceCoordinator.async_add_command s did cn code ct
                Option.none cid lat with e | p
            · rfl
            · rfl
      · rw [if_pos (by simp [hok])]
        left
        rfl

/-- C9: no public-surface operation ever mutates the `code` of a stored
`IRCommand` in place: whatever operation runs, a command that is still
present afterwards (same device id, same key) has its `id`, `name`,
`code`, `command_type` and `learned_at` unchanged — only `icon` can
differ (via the icon update). -/
theorem C9_command_immutable (s : Store) (op : Op) (device_id key : String)
    (dev : VirtualDevice) (c c' : IRCommand)
    (hdd : (akeys s.devices).Nodup)
    (h1 : alookup s.devices device_id = Option.some dev)
    (hnd : (akeys dev.commands).Nodup)
    (h2 : alookup dev.commands key = Option.some c)
    (h3 : lookupCommand (applyOp s op) device_id key = Option.some c') :
    c'.id = c.id ∧ c'.name = c.name ∧ c'.code = c.code ∧
    c'.command_type = c.command_type ∧ c'.learned_at = c.learned_at := by
  suffices h : c' = c ∨ c' = { c with icon := c'.icon } by
    rcases h with rfl | he
    · exact ⟨rfl, rfl, rfl, rfl, rfl⟩
    · rw [he]
      exact ⟨rfl, rfl, rfl, rfl, rfl⟩
  cases op with
  | addDevice newId name blaster createdAt =>
      left
      simp only [applyOp] at h3
      unfold runAddDevice IRDeviceCoordinator.async_add_device at h3
      by_cases hdup : (IRDeviceStorage.get_device_by_name s name).isSome = true
      · simp only [hdup, if_true] at h3
        exact eq_of_lookup s device_id key dev c c' h1 h2 h3
      · simp only [Bool.not_eq_true] at hdup
        simp only [hdup, Bool.false_eq_true, if_false,
          IRDeviceStorage.async_add_device, IRDeviceStorage.async_save] at h3
        rw [lookupCommand_def] at h3
        by_cases hid : newId = device_id
        · subst hid
          simp only [alookup_ainsert_self, Option.some_bind] at h3
          simp [alookup] at h3
        · simp only [alookup_ainsert_ne _ _ hid, h1, Option.some_bind, h2] at h3
          exact (Option.some.inj h3).symm
  | removeDevice did =>
      left
      simp only [applyOp] at h3
      unfold IRDeviceCoordinator.async_remove_device
        IRDeviceStorage.async_remove_device at h3
      by_cases hc : acontains s.devices did = true
      · simp only [hc, if_true, IRDeviceStorage.async_save] at h3
        rw [lookupCommand_def] at h3
        by_cases hid : did = device_id
        · subst hid
          simp only [alookup_aerase_self s.devices did hdd, Option.none_bind] at h3
          cases h3
        · simp only [alookup_aerase_ne _ hid, h1, Option.some_bind, h2] at h3
          exact (Option.some.inj h3).symm
      · simp only [hc, Bool.false_eq_true, if_false] at h3
        exact eq_of_lookup s device_id key dev c c' h1 h2 h3
  | addCommand did cn code ct icon cid lat =>
      left
      simp only [applyOp] at h3
      exact addCommand_store_preserves s did cn code ct icon cid lat
        device_id key dev c c' h1 h2 h3
  | deleteCommand did cn =>
      left
      simp only [applyOp] at h3
      unfold IRDeviceCoordinator.async_delete_command
        IRDeviceStorage.async_remove_command at h3
      rcases halook : alookup s.devices did with _ | dev0
      · simp only [halook] at h3
        exact eq_of_lookup s device_id key dev c c' h1 h2 h3
      · simp only [halook] at h3
        by_cases hcont : acontains dev0.commands (lower cn) = true
        · simp only [hcont, if_true, IRDeviceStorage.async_save] at h3
          rw [lookupCommand_def] at h3
          by_cases hid : did = device_id
          · subst hid
            rw [h1] at halook
            have hdev0 : dev0 = dev := (Option.some.inj halook).symm
            subst hdev0
            simp only [alookup_ainsert_self, Option.some_bind] at h3
            by_cases hk : lower cn = key
            · rw [hk] at h3
              simp only [alookup_aerase_self _ _ hnd] at h3
              cases h3
            · simp only [alookup_aerase_ne _ hk, h2] at h3
              exact (Option.some.inj h3).symm
          · simp only [alookup_ainsert_ne _ _ hid, h1, Option.some_bind, h2] at h3
            exact (Option.some.inj h3).symm
        · simp only [hcont, Bool.false_eq_true, if_false] at h3
          exact eq_of_lookup s device_id key dev c c' h1 h2 h3
  | sendCommand did cn r =>
      left
      simp only [applyOp] at h3
      exact eq_of_lookup s device_id key dev c c' h1 h2 h3
  | learnCommand did cn ct ok r cid lat =>
      left
      simp only [applyOp] at h3
      rcases runLearnCommand_cases s did cn ct ok r cid lat with hs | ⟨code, hs⟩
      · rw [hs] at h3
        exact eq_of_lookup s device_id key dev c c' h1 h2 h3
      · rw [hs] at h3
        exact addCommand_store_preserves s did cn code ct Option.none cid lat
          device_id key dev c c' h1 h2 h3
  | updateCommandIcon did cn icon =>
      simp only [applyOp] at h3
      unfold IRDeviceCoordinator.async_update_command_icon at h3
      rcases halook : alookup s.devices did with _ | dev0
      · left
        simp only [halook] at h3
        exact eq_of_lookup s device_id key dev c c' h1 h2 h3
      · simp only [halook] at h3
        rcases hcmd : alookup dev0.commands (lower cn) with _ | cmd0
        · left
          simp only [hcmd] at h3
          exact eq_of_lookup s device_id key dev c c' h1 h2 h3
        · simp only [hcmd, IRDeviceStorage.async_save] at h3
          rw [lookupCommand_def] at h3
          by_cases hid : did = device_id
          · subst hid
            rw [h1] at halook
            have hdev0 : dev0 = dev := (Option.some.inj halook).symm
            subst hdev0
            simp only [alookup_ainsert_self, Option.some_bind] at h3
            by_cases hk : lower cn = key
            · right
              rw [hk] at h3 hcmd
              rw [h2] at hcmd
              have hcmd0 : cmd0 = c := Option.some.inj hcmd.symm
              rw [alookup_ainsert_self] at h3
              have hc' : c' = { cmd0 with icon := icon } :=
                (Option.some.inj h3).symm
              rw [hcmd0] at hc'
              rw [hc']
            · left
              simp only [alookup_ainsert_ne _ _ hk, h2] at h3
              exact (Option.some.inj h3).symm
          · left
            simp only [alookup_ainsert_ne _ _ hid, h1, Option.some_bind, h2] at h3
            exact (Option.some.inj h3).symm
  | updateDeviceType did dt =>
      left
      simp only [applyOp] at h3
      unfold IRDeviceCoordinator.async_update_device_type at h3
      rcases halook : alookup s.devices did with _ | dev0
      · simp only [halook] at h3
        exact eq_of_lookup s device_id key dev c c' h1 h2 h3
      · simp only [halook, IRDeviceStorage.async_save] at h3
        rw [lookupCommand_def] at h3
        by_cases hid : did = device_id
        · subst hid
          rw [h1] at halook
          have hdev0 : dev0 = dev := (Option.some.inj halook).symm
          subst hdev0
          simp only [alookup_ainsert_self, Option.some_bind] at h3
          rw [h2] at h3
          exact (Option.some.inj h3).symm
        · simp only [alookup_ainsert_ne _ _ hid, h1, Option.some_bind, h2] at h3
          exact (Option.some.inj h3).symm
  | updateEntityConfig did et cfg =>
      left
      simp only [applyOp] at h3
      unfold IRDeviceCoordinator.async_update_entity_config at h3
      rcases halook : alookup s.devices did with _ | dev0
      · simp only [halook] at h3
        exact eq_of_lookup s device_id key dev c c' h1 h2 h3
      · simp only [halook, IRDeviceStorage.async_save] at h3
        rw [lookupCommand_def] at h3
        by_cases hid : did = device_id
        · subst hid
          rw [h1] at halook
          have hdev0 : dev0 = dev := (Option.some.inj halook).symm
          subst hdev0
          simp only [alookup_ainsert_self, Option.some_bind] at h3
          rw [h2] at h3
          exact (Option.some.inj h3).symm
        · simp only [alookup_ainsert_ne _ _ hid, h1, Option.some_bind, h2] at h3
          exact (Option.some.inj h3).symm
  | saveEntityState did et st =>
      left
      simp only [applyOp] at h3
      unfold IRDeviceCoordinator.async_save_entity_state at h3
      rcases halook : alookup s.devices did with _ | dev0
      · simp only [halook] at h3
        exact eq_of_lookup s device_id key dev c c' h1 h2 h3
      · simp only [halook] at h3
        rcases hcfg : alookup dev0.entity_configs et with _ | cfg0
        · simp only [hcfg] at h3
          exact eq_of_lookup s device_id key dev c c' h1 h2 h3
        · simp only [hcfg, IRDeviceStorage.async_save] at h3
          rw [lookupCommand_def] at h3
          by_cases hid : did = device_id
          · subst hid
            rw [h1] at halook
            have hdev0 : dev0 = dev := (Option.some.inj halook).symm
            subst hdev0
            simp only [alookup_ainsert_self, Option.some_bind] at h3
            rw [h2] at h3
            exact (Option.some.inj h3).symm
          · simp only [alookup_ainsert_ne _ _ hid, h1, Option.some_bind, h2] at h3
            exact (Option.some.inj h3).symm

/-- Witness for C9: the icon update on the fixture store changes only the
icon of the stored command. -/
theorem C9_command_immutable_witness :
    ((akeys sampleStore.devices).Nodup ∧
      alookup sampleStore.devices "d1" = Option.some sampleDevice ∧
      (akeys sampleDevice.commands).Nodup ∧
      alookup sampleDevice.commands "power" = Option.some sampleCommand ∧
      lookupCommand (applyOp sampleStore
          (Op.updateCommandIcon "d1" "Power" (Option.some "mdi:new")))
        "d1" "power"
        = Option.some { sampleCommand with icon := Option.some "mdi:new" }) ∧
    (({ sampleCommand with icon := Option.some "mdi:new" } : IRCommand).id
        = sampleCommand.id ∧
      ({ sampleCommand with icon := Option.some "mdi:new" } : IRCommand).name
        = sampleCommand.name ∧
      ({ sampleCommand with icon := Option.some "mdi:new" } : IRCommand).code
        = sampleCommand.code ∧
      ({ sampleCommand with icon := Option.some "mdi:new" } : IRCommand).command_type
        = sampleCommand.command_type ∧
      ({ sampleCommand with icon := Option.some "mdi:new" } : IRCommand).learned_at
        = sampleCommand.learned_at) :=
  ⟨⟨by decide, rfl, by decide, rfl, rfl⟩,
   C9_command_immutable sampleStore
     (Op.updateCommandIcon "d1" "Power" (Option.some "mdi:new")) "d1" "power"
     sampleDevice sampleCommand
     { sampleCommand with icon := Option.some "mdi:new" }
     (by decide) rfl (by decide) rfl rfl⟩

end RIDM
